import Mathlib

/-!
# Verification of the Highcharts configuration-node binding layer

Shallow embedding of the configuration-node classes of this repository
(`highcharts/plot_options/gauge.py`, `highcharts/utility_classes/breadcrumbs.py`,
`highcharts/chart/reset_zoom_button.py`,
`highcharts/accessibility/keyboard_navigation/series_navigation.py`,
`highcharts/series/data/vector.py`) together with models of the external
`validator_collection` validators the setters call.

External JSON-like values are modelled by `JValue`; numeric values are modelled
as integers (every numeric value appearing in the verified properties is an
integer, so no floating-point behaviour is involved).  A Python `None` is
`JValue.null`; the explicit-null sentinel `EnforcedNullType` is `JValue.enull`.
Exceptions are modelled by the `Except PyError` monad: a setter that raises is a
function returning `Except.error`, and a Python assignment that raises leaves
the previously stored state untouched, which the state-passing embedding makes
explicit by only producing a new state in the `Except.ok` case.
-/

namespace HighchartsSpec

/-- External JSON-like value: the input/output universe of the binding layer.
Numerics are modelled as integers; `null` is Python `None`; `enull` is the
explicit-null sentinel (`constants.EnforcedNullType`). -/
inductive JValue where
  | null
  | enull
  | bool (b : Bool)
  | num (n : Int)
  | str (s : String)
  | list (xs : List JValue)
  | dict (entries : List (String × JValue))

/-- Python truthiness (`bool(value)`) over the modelled value universe.
`None`, `False`, `0`, the empty string, the empty list and the empty dict are
falsy; the `EnforcedNullType` sentinel is an ordinary (truthy) object. -/
def JValue.falsy : JValue → Bool
  | .null => true
  | .enull => false
  | .bool b => !b
  | .num n => n == 0
  | .str s => s == ""
  | .list xs => xs.isEmpty
  | .dict es => es.isEmpty

/-- Python `bool(value)` as used by the boolean setters (`crisp`, `wrap`, ...). -/
def JValue.truthy (v : JValue) : Bool := !v.falsy

/-- Association-list lookup for the modelled external dictionaries. -/
def jlookup : List (String × JValue) → String → Option JValue
  | [], _ => none
  | (k, v) :: rest, key => if k == key then some v else jlookup rest key

/-- Model of `as_dict.pop(key, default)`: the value stored under `key`, or the default.
(The keys popped by each embedded `from_dict` are pairwise distinct, so the
mutation performed by `pop` is equivalent to repeated lookup.) -/
def jpop (d : List (String × JValue)) (key : String) (dflt : JValue) : JValue :=
  match jlookup d key with
  | some v => v
  | none => dflt

/-- Accumulate the value of a decimal digit run; any non-digit character makes
the parse fail. -/
def parseDigitsAux : List Char → Nat → Option Nat
  | [], acc => some acc
  | c :: cs, acc =>
    if 48 ≤ c.toNat && c.toNat ≤ 57 then
      parseDigitsAux cs (acc * 10 + (c.toNat - 48))
    else none

/-- The numeric-string coercion performed by the numeric validators, modelled
for decimal integer literals with an optional leading minus sign (every
numeric string appearing in the verified properties is of this shape; a
non-numeric string fails, as in the real validator). -/
def strToInt? (s : String) : Option Int :=
  match s.toList with
  | [] => none
  | c :: cs =>
    if c == '-' then
      match cs with
      | [] => none
      | _ => (parseDigitsAux cs 0).map (fun n => -(n : Int))
    else (parseDigitsAux (c :: cs) 0).map (fun n => (n : Int))

/-- ASCII model of `str.lower()` (every enumeration token of the
embedded code is ASCII). -/
def lowerStr (s : String) : String :=
  ⟨s.toList.map (fun c =>
    if 65 ≤ c.toNat && c.toNat ≤ 90 then Char.ofNat (c.toNat + 32) else c)⟩

/-- The exception kinds raised by the embedded code.  `emptyValueError`,
`cannotCoerceError` and `minimumValueError` are the `validator_collection`
errors (all of which subclass Python `ValueError`); `highchartsValueError` is
`errors.HighchartsValueError`; `attributeError` and `typeError` are the Python
built-in exceptions of those names. -/
inductive PyError where
  | emptyValueError
  | cannotCoerceError
  | minimumValueError
  | highchartsValueError (msg : String)
  | attributeError (attr : String)
  | typeError (msg : String)

/-- True when the error models a Python `ValueError` (every
`validator_collection` error and `errors.HighchartsValueError` subclass
`ValueError`; `AttributeError` and `TypeError` do not). -/
def PyError.isValueError : PyError → Bool
  | .emptyValueError => true
  | .cannotCoerceError => true
  | .minimumValueError => true
  | .highchartsValueError _ => true
  | .attributeError _ => false
  | .typeError _ => false

namespace validators

/-- Lower bound check performed by the numeric validators: violating a
`minimum` argument raises `MinimumValueError`. -/
def checkMinimum (minimum : Option Int) (n : Int) : Except PyError JValue :=
  match minimum with
  | none => .ok (.num n)
  | some m => if m ≤ n then .ok (.num n) else .error .minimumValueError

/-- Model of `validator_collection.validators.string`.  A falsy value is
rejected with `EmptyValueError` unless `allow_empty` is set, in which case
`None` is returned; a non-empty string passes through; any other value is
rejected with `CannotCoerceError` (no claim exercises the optional
`coerce_value` behaviour, which is never enabled by the embedded code). -/
def string (value : JValue) (allow_empty : Bool) : Except PyError JValue :=
  if value.falsy then
    if allow_empty then .ok .null else .error .emptyValueError
  else
    match value with
    | .str s => .ok (.str s)
    | _ => .error .cannotCoerceError

/-- Model of `validator_collection.validators.numeric` over the integer-valued
universe.  `None` is rejected with `EmptyValueError` unless `allow_empty`;
numbers, booleans (Python `bool` is an `int`) and numeric strings are coerced
and range-checked; anything else is rejected with `CannotCoerceError`. -/
def numeric (value : JValue) (allow_empty : Bool) (minimum : Option Int) :
    Except PyError JValue :=
  match value with
  | .null => if allow_empty then .ok .null else .error .emptyValueError
  | .num n => checkMinimum minimum n
  | .bool b => checkMinimum minimum (if b then 1 else 0)
  | .str s =>
    match strToInt? s with
    | some n => checkMinimum minimum n
    | none => .error .cannotCoerceError
  | _ => .error .cannotCoerceError

/-- Model of `validator_collection.validators.integer` over the integer-valued
universe (which contains no fractional numbers, so the integrality check of the
real validator is always satisfied here). -/
def integer (value : JValue) (allow_empty : Bool) (minimum : Option Int) :
    Except PyError JValue :=
  match value with
  | .null => if allow_empty then .ok .null else .error .emptyValueError
  | .num n => checkMinimum minimum n
  | .bool b => checkMinimum minimum (if b then 1 else 0)
  | .str s =>
    match strToInt? s with
    | some n => checkMinimum minimum n
    | none => .error .cannotCoerceError
  | _ => .error .cannotCoerceError

/-- Model of `validator_collection.validators.dict`.  A falsy value is rejected
with `EmptyValueError` unless `allow_empty` is set, in which case `None` is
returned; a non-empty dict passes through; other values are rejected with
`CannotCoerceError` (the JSON-string coercion of the real validator is not
exercised by the embedded code on any verified input). -/
def dict (value : JValue) (allow_empty : Bool) : Except PyError JValue :=
  if value.falsy then
    if allow_empty then .ok .null else .error .emptyValueError
  else
    match value with
    | .dict es => .ok (.dict es)
    | _ => .error .cannotCoerceError

/-- Model of `validator_collection.validators.iterable`: accepts lists, dicts
and strings (the Python iterables of the modelled universe), rejects the rest
with `CannotCoerceError`. -/
def iterable (value : JValue) : Except PyError JValue :=
  match value with
  | .list xs => .ok (.list xs)
  | .dict es => .ok (.dict es)
  | .str s => .ok (.str s)
  | _ => .error .cannotCoerceError

end validators

/-- Conversion of a validator result to an optional stored string
(`.null` stands for the stored Python `None`). -/
def asOptStr : JValue → Option String
  | .str s => some s
  | _ => none

/-- Conversion of a validator result to an optional stored number. -/
def asOptInt : JValue → Option Int
  | .num n => some n
  | _ => none

/-- Propagate a validator outcome into an optionally stored raw value
(`self._field = validators...(value)` where the validator may return `None`). -/
def storedJ : Except PyError JValue → Except PyError (Option JValue)
  | .ok .null => .ok none
  | .ok v => .ok (some v)
  | .error e => .error e

/-- Propagate a validator outcome into an optionally stored string field. -/
def storedStr : Except PyError JValue → Except PyError (Option String)
  | .ok (.str s) => .ok (some s)
  | .ok _ => .ok none
  | .error e => .error e

/-- Propagate a validator outcome into an optionally stored numeric field. -/
def storedInt : Except PyError JValue → Except PyError (Option Int)
  | .ok (.num n) => .ok (some n)
  | .ok _ => .ok none
  | .error e => .error e

/-- The boolean setter pattern used throughout the sources:
`if value is None: store None; else: store bool(value)`. -/
def boolOrNone : JValue → Option Bool
  | .null => none
  | v => some v.truthy

/-- Lower a stored optional value back into the external universe
(unset fields re-appear as `null` in the untrimmed dictionary). -/
def jOfOpt : Option JValue → JValue
  | none => .null
  | some v => v

/-- Lower a stored optional string field. -/
def jOfOptStr : Option String → JValue
  | none => .null
  | some s => .str s

/-- Lower a stored optional numeric field. -/
def jOfOptInt : Option Int → JValue
  | none => .null
  | some n => .num n

/-- Lower a stored optional boolean field. -/
def jOfOptBool : Option Bool → JValue
  | none => .null
  | some b => .bool b

/-- Modelled from the spec: configuration-node types referenced by the embedded
classes whose defining modules are not included in the sources
(`BreadcrumbEvents`, `Position`, `ShadowOptions`).  Per spec §3/§4.3 such a
node is a validated property bag built from an external dictionary; its state
is represented by its external field set. -/
structure SpecNode where
  fields : List (String × JValue)

/-- Modelled from the spec: `from_dict` of a node type not included in the
sources simply captures the external field set (spec §4.3). -/
def SpecNode.fromDict (es : List (String × JValue)) : Except PyError SpecNode :=
  .ok ⟨es⟩

/-- Modelled from the spec: the `class_sensitive` setter decorator
(`highcharts/decorators.py`, not included in the sources).  Per spec §4.1 a
nested-node field accepts `None` (stores unset) or a dictionary (converted via
the own `from_dict` of the node type); any other external value fails.  (An
already-typed node instance also passes through in Python; instances do not
occur in the external value universe modelled here.) -/
def classSensitive (fromDict : List (String × JValue) → Except PyError α)
    (value : JValue) : Except PyError (Option α) :=
  match value with
  | .null => .ok none
  | .dict es => (fromDict es).map some
  | _ => .error (.highchartsValueError "expects a compatible dict or None")

/-! ## `highcharts/utility_classes/breadcrumbs.py` -/

/-- Embedding of `Separator` (breadcrumbs.py lines 13-63): style and text of the breadcrumb
separator. -/
structure Separator where
  style : Option JValue
  text : Option String

/-- The `Separator.style` setter (breadcrumbs.py lines 31-33):
`self._style = validators.dict(value)`.  Note that `allow_empty` is **not**
passed, so it defaults to `False` and an absent value is rejected. -/
def Separator.styleSet (value : JValue) : Except PyError (Option JValue) :=
  storedJ (validators.dict value false)

/-- The `Separator.text` setter (breadcrumbs.py lines 44-46). -/
def Separator.textSet (value : JValue) : Except PyError (Option String) :=
  storedStr (validators.string value true)

/-- Embedding of `Separator.__init__` (breadcrumbs.py lines 16-21): runs the `style` and
`text` setters on `kwargs.pop(name, None)`. -/
def Separator.init (kwargs : List (String × JValue)) : Except PyError Separator := do
  let style ← Separator.styleSet (jpop kwargs "style" .null)
  let text ← Separator.textSet (jpop kwargs "text" .null)
  .ok { style := style, text := text }

/-- Embedding of `Separator.from_dict` (breadcrumbs.py lines 48-55). -/
def Separator.fromDict (as_dict : List (String × JValue)) : Except PyError Separator :=
  Separator.init [("style", jpop as_dict "style" .null),
                  ("text", jpop as_dict "text" .null)]

/-- Embedding of `Separator._to_untrimmed_dict` (breadcrumbs.py lines 57-63). -/
def Separator.toUntrimmedDict (s : Separator) : List (String × JValue) :=
  [("style", jOfOpt s.style), ("text", jOfOptStr s.text)]

/-- Embedding of `BreadcrumbOptions` (breadcrumbs.py lines 66-363).  `__init__` assigns
`self._button_theme = None` but the `button_theme` setter and getter use
`self._theme` (lines 127-131), so the instance carries both attributes:
`buttonThemeUnused` models the never-read `_button_theme` slot and `theme`
models `_theme`. -/
structure BreadcrumbOptions where
  button_spacing : Option Int
  buttonThemeUnused : Option JValue
  theme : Option JValue
  events : Option SpecNode
  floating : Option Bool
  format : Option String
  formatter : Option String
  position : Option SpecNode
  relative_to : Option String
  rtl : Option Bool
  separator : Option Separator
  show_full_path : Option Bool
  style : Option JValue
  use_html : Option Bool
  z_index : Option Int

/-- The `BreadcrumbOptions.relative_to` setter (breadcrumbs.py lines 222-233):
falsy stores unset; otherwise the value is validated as a string, lowercased,
and checked against the list `[plot, chart, plotBox, spacingBox]` (each a quoted literal in the source).
Because the membership test happens **after** lowercasing, the mixed-case
members of that list can never match. -/
def BreadcrumbOptions.relativeToSet (value : JValue) :
    Except PyError (Option String) :=
  if value.falsy then .ok none
  else
    match validators.string value false with
    | .ok (.str s0) =>
      let s := lowerStr s0
      if ["plot", "chart", "plotBox", "spacingBox"].contains s then .ok (some s)
      else .error (.highchartsValueError
        ("relative_to accepts \"plot\", \"chart\", \"plotBox\", \"spacingBox\", or None. Received: " ++ s))
    | .ok _ => .error .cannotCoerceError
    | .error e => .error e

/-- The `BreadcrumbOptions.z_index` setter (breadcrumbs.py lines 320-322):
`value = validators.integer(value, allow_empty = True)` and nothing else — the
validated value is bound to the local `value` and never assigned to any
attribute, so the object is returned unchanged on success. -/
def BreadcrumbOptions.zIndexSet (b : BreadcrumbOptions) (value : JValue) :
    Except PyError BreadcrumbOptions :=
  match validators.integer value true none with
  | .ok _ => .ok b
  | .error e => .error e

/-- Embedding of `BreadcrumbOptions.__init__` (breadcrumbs.py lines 70-99): every backing
attribute starts as `None`, then each setter runs on `kwargs.pop(name, None)`
in source order.  The `z_index` setter (see `BreadcrumbOptions.zIndexSet`)
validates its input but never writes `_z_index`, which therefore keeps the
`None` assigned at the top of `__init__`. -/
def BreadcrumbOptions.init (kwargs : List (String × JValue)) :
    Except PyError BreadcrumbOptions := do
  let button_spacing ← storedInt
    (validators.numeric (jpop kwargs "button_spacing" .null) true none)
  let theme ← storedJ (validators.dict (jpop kwargs "button_theme" .null) true)
  let events ← classSensitive SpecNode.fromDict (jpop kwargs "events" .null)
  let floating := boolOrNone (jpop kwargs "floating" .null)
  let format ← storedStr (validators.string (jpop kwargs "format" .null) true)
  let formatter ← storedStr (validators.string (jpop kwargs "formatter" .null) true)
  let position ← classSensitive SpecNode.fromDict (jpop kwargs "position" .null)
  let relative_to ← BreadcrumbOptions.relativeToSet (jpop kwargs "relative_to" .null)
  let rtl := boolOrNone (jpop kwargs "rtl" .null)
  let separator ← classSensitive Separator.fromDict (jpop kwargs "separator" .null)
  let show_full_path := boolOrNone (jpop kwargs "show_full_path" .null)
  let style ← storedJ (validators.dict (jpop kwargs "style" .null) true)
  let use_html := boolOrNone (jpop kwargs "use_html" .null)
  let _zIndexCheck ← validators.integer (jpop kwargs "z_index" .null) true none
  .ok { button_spacing := button_spacing,
        buttonThemeUnused := none,
        theme := theme,
        events := events,
        floating := floating,
        format := format,
        formatter := formatter,
        position := position,
        relative_to := relative_to,
        rtl := rtl,
        separator := separator,
        show_full_path := show_full_path,
        style := style,
        use_html := use_html,
        z_index := none }

/-! ## `highcharts/chart/reset_zoom_button.py` -/

/-- Embedding of `ResetZoomButtonOptions` (reset_zoom_button.py lines 11-101). -/
structure ResetZoomButtonOptions where
  position : Option SpecNode
  relative_to : Option String
  theme : Option JValue

/-- The `ResetZoomButtonOptions.relative_to` setter (reset_zoom_button.py
lines 52-63): identical body to the breadcrumbs setter — lowercase first, then
membership in the same mixed-case token list as the breadcrumbs setter. -/
def ResetZoomButtonOptions.relativeToSet (value : JValue) :
    Except PyError (Option String) :=
  if value.falsy then .ok none
  else
    match validators.string value false with
    | .ok (.str s0) =>
      let s := lowerStr s0
      if ["plot", "chart", "plotBox", "spacingBox"].contains s then .ok (some s)
      else .error (.highchartsValueError
        ("relative_to accepts \"plot\", \"chart\", \"plotBox\", \"spacingBox\", or None. Received: " ++ s))
    | .ok _ => .error .cannotCoerceError
    | .error e => .error e

/-- Embedding of `ResetZoomButtonOptions.__init__` (reset_zoom_button.py lines 15-22). -/
def ResetZoomButtonOptions.init (kwargs : List (String × JValue)) :
    Except PyError ResetZoomButtonOptions := do
  let position ← classSensitive SpecNode.fromDict (jpop kwargs "position" .null)
  let relative_to ← ResetZoomButtonOptions.relativeToSet
    (jpop kwargs "relative_to" .null)
  let theme ← storedJ (validators.dict (jpop kwargs "theme" .null) true)
  .ok { position := position, relative_to := relative_to, theme := theme }

/-! ## `highcharts/accessibility/keyboard_navigation/series_navigation.py` -/

/-- Embedding of `SeriesNavigation` (series_navigation.py lines 7-122).  The field
`point_navigation_enabled_threshold` stores either `False` or an integer. -/
structure SeriesNavigation where
  mode : String
  point_navigation_enabled_threshold : JValue
  remember_point_focus : Bool
  skip_null_points : Bool

/-- Every attribute or method name defined on a `SeriesNavigation` instance or
its class (series_navigation.py): the four backing attributes assigned in
`__init__`, the four properties, and the two conversion methods.  Neither
`point_focus` (read by the `remember_point_focus` getter, line 84) nor
`remmeber_point_focus` (read by `to_dict`, line 119) appears. -/
def SeriesNavigation.attributeNames : List String :=
  ["_mode", "_point_navigation_enabled_threshold", "_remember_point_focus",
   "_skip_null_points", "mode", "point_navigation_enabled_threshold",
   "remember_point_focus", "skip_null_points", "from_dict", "to_dict"]

/-- The `SeriesNavigation.mode` setter (series_navigation.py lines 42-49):
validate as a string, lowercase, and check membership in
`[normal, serialize]` (each a quoted literal in the source). -/
def SeriesNavigation.modeSet (value : JValue) : Except PyError String :=
  match validators.string value false with
  | .ok (.str s0) =>
    let s := lowerStr s0
    if ["normal", "serialize"].contains s then .ok s
    else .error (.highchartsValueError
      ("Expects either \"normal\" or \"serialize\". Received: " ++ s))
  | .ok _ => .error .cannotCoerceError
  | .error e => .error e

/-- The `SeriesNavigation.point_navigation_enabled_threshold` setter
(series_navigation.py lines 63-71): `False` is stored as-is, any other value is
validated as an integer with `allow_empty = False`. -/
def SeriesNavigation.pnetSet (value : JValue) : Except PyError JValue :=
  match value with
  | .bool false => .ok (.bool false)
  | v => validators.integer v false none

/-- Embedding of `SeriesNavigation.__init__` (series_navigation.py lines 10-20): note the
non-`None` defaults (`mode` defaults to the string normal, the thresholds to `False`/`True`). -/
def SeriesNavigation.init (kwargs : List (String × JValue)) :
    Except PyError SeriesNavigation := do
  let mode ← SeriesNavigation.modeSet (jpop kwargs "mode" (.str "normal"))
  let pnet ← SeriesNavigation.pnetSet
    (jpop kwargs "point_navigation_enabled_threshold" (.bool false))
  let rpf := (jpop kwargs "remember_point_focus" (.bool false)).truthy
  let snp := (jpop kwargs "skip_null_points" (.bool true)).truthy
  .ok { mode := mode, point_navigation_enabled_threshold := pnet,
        remember_point_focus := rpf, skip_null_points := snp }

/-- The `SeriesNavigation.remember_point_focus` getter (series_navigation.py
lines 73-84): its body is `return self.point_focus`, and `point_focus` is not
among `SeriesNavigation.attributeNames` — the class defines no attribute,
property or method of that name (and the spec describes no dynamic attribute
fallback for configuration nodes), so the attribute lookup raises
`AttributeError`. -/
def SeriesNavigation.rememberPointFocusGet (_s : SeriesNavigation) :
    Except PyError Bool :=
  .error (.attributeError "point_focus")

/-- Embedding of `SeriesNavigation.to_dict` (series_navigation.py lines 115-122): the
untrimmed dictionary evaluates `self.mode`, then
`self.point_navigation_enabled_threshold` (both succeed), then
`self.remmeber_point_focus` — a misspelling that names no attribute of the
class (see `SeriesNavigation.attributeNames`), so building the dictionary
raises `AttributeError` before `trim_dict` is ever reached. -/
def SeriesNavigation.toDict (s : SeriesNavigation) :
    Except PyError (List (String × JValue)) :=
  let _modeValue := s.mode
  let _pnetValue := s.point_navigation_enabled_threshold
  .error (.attributeError "remmeber_point_focus")

/-! ## `highcharts/plot_options/gauge.py` -/

/-- True when the value is a Python `dict`. -/
def JValue.isDict : JValue → Bool
  | .dict _ => true
  | _ => false

/-- True when the value is a Python `str`. -/
def JValue.isStr : JValue → Bool
  | .str _ => true
  | _ => false

/-- Whether the first character list is a prefix of the second. -/
def charPrefixEq : List Char → List Char → Bool
  | [], _ => true
  | _ :: _, [] => false
  | a :: as, b :: bs => a == b && charPrefixEq as bs

/-- Whether the needle occurs as a contiguous run inside the haystack. -/
def charInfix (needle : List Char) : List Char → Bool
  | [] => needle.isEmpty
  | c :: rest => charPrefixEq needle (c :: rest) || charInfix needle rest

/-- The Python membership test `marker in value` as used by the colour setters
(gauge.py lines 55, 63, 65, 73, ...): a substring test on strings and a key
test on dicts — the only shapes the setters apply it to. -/
def markerIn (marker : String) : JValue → Bool
  | .str s => charInfix marker.toList s.toList
  | .dict es => (jlookup es marker).isSome
  | _ => false

/-- Modelled from the spec: the `Gradient` node type
(`highcharts/utility_classes/gradients.py`, not included in the sources).  Per
spec §3/§4.3 it is a configuration node; its state is represented by its
external field set. -/
structure Gradient where
  fields : List (String × JValue)

/-- Modelled from the spec: `Gradient.from_json` accepts the literal-encoded
form (spec §4.2 step 3) — a dict carrying the camelCase marker keys converts
directly, while a raw string must first go through the external literal
parser.  No verified input exercises a successfully-parsing gradient string,
and on the plain strings considered here the parse attempt fails with a
`ValueError` kind, which is exactly the failure the embedded setters catch and
handle through their documented fallback. -/
def Gradient.fromJson : JValue → Except PyError Gradient
  | .dict es => .ok ⟨es⟩
  | _ => .error .cannotCoerceError

/-- Modelled from the spec: `Gradient.from_dict` interprets a dict as a direct
gradient field-set (spec §4.2 step 3 fallback). -/
def Gradient.fromDict (es : List (String × JValue)) : Except PyError Gradient :=
  .ok ⟨es⟩

/-- Modelled from the spec: `Gradient(**value)` builds the gradient node
directly from internal (snake_case) field names (spec §4.2 step 4). -/
def Gradient.fromKwargs (es : List (String × JValue)) : Except PyError Gradient :=
  .ok ⟨es⟩

/-- Modelled from the spec: the `Pattern` node type
(`highcharts/utility_classes/patterns.py`, not included in the sources),
symmetric to `Gradient` (spec §4.2 step 5). -/
structure Pattern where
  fields : List (String × JValue)

/-- Modelled from the spec: `Pattern.from_json`, symmetric to
`Gradient.fromJson`. -/
def Pattern.fromJson : JValue → Except PyError Pattern
  | .dict es => .ok ⟨es⟩
  | _ => .error .cannotCoerceError

/-- Modelled from the spec: `Pattern.from_dict`. -/
def Pattern.fromDict (es : List (String × JValue)) : Except PyError Pattern :=
  .ok ⟨es⟩

/-- Modelled from the spec: `Pattern(**value)`. -/
def Pattern.fromKwargs (es : List (String × JValue)) : Except PyError Pattern :=
  .ok ⟨es⟩

/-- A stored polymorphic colour value: a plain colour string, a gradient node,
or a pattern node. -/
inductive ColorValue where
  | plain (s : String)
  | gradient (g : Gradient)
  | pattern (p : Pattern)

/-- The polymorphic colour setter shared verbatim by
`DialOptions.background_color` (gauge.py lines 49-78),
`DialOptions.border_color` (lines 132-161), `PivotOptions.background_color`
(lines 305-334) and `PivotOptions.border_color` (lines 349-378):

1. falsy → store unset;
2. an already-typed `Gradient`/`Pattern` instance → store as-is (instances do
   not occur in the external value universe modelled here);
3. dict-or-string containing `linearGradient` → try `Gradient.from_json`;
   on `ValueError`, a dict falls back to `Gradient.from_dict` and a string to
   `validators.string`;
4. dict containing `linear_gradient` → `Gradient(**value)`;
5./6. the same two steps for `patternOptions` / `pattern_options`;
7. **anything else raises** `HighchartsValueError` — including a plain colour
   string such as `#ccc`, which matches none of the earlier branches.
(The f-string interpolation of the offending value into the error message is
elided.) -/
def colorResolve (value : JValue) : Except PyError (Option ColorValue) :=
  if value.falsy then .ok none
  else if (value.isDict || value.isStr) && markerIn "linearGradient" value then
    match Gradient.fromJson value with
    | .ok g => .ok (some (.gradient g))
    | .error _ =>
      match value with
      | .dict es => (Gradient.fromDict es).map (fun g => some (.gradient g))
      | _ =>
        match validators.string value false with
        | .ok (.str s) => .ok (some (.plain s))
        | .ok _ => .error .cannotCoerceError
        | .error e => .error e
  else if value.isDict && markerIn "linear_gradient" value then
    match value with
    | .dict es => (Gradient.fromKwargs es).map (fun g => some (.gradient g))
    | _ => .error .cannotCoerceError
  else if (value.isDict || value.isStr) && markerIn "patternOptions" value then
    match Pattern.fromJson value with
    | .ok p => .ok (some (.pattern p))
    | .error _ =>
      match value with
      | .dict es => (Pattern.fromDict es).map (fun p => some (.pattern p))
      | _ =>
        match validators.string value false with
        | .ok (.str s) => .ok (some (.plain s))
        | .ok _ => .error .cannotCoerceError
        | .error e => .error e
  else if value.isDict && markerIn "pattern_options" value then
    match value with
    | .dict es => (Pattern.fromKwargs es).map (fun p => some (.pattern p))
    | _ => .error .cannotCoerceError
  else
    .error (.highchartsValueError
      "Unable to resolve value to a string, Gradient, or Pattern.")

/-- Lower a stored colour value into the external universe (nested gradient and
pattern nodes are lowered via their own field sets). -/
def jOfColor : Option ColorValue → JValue
  | none => .null
  | some (.plain s) => .str s
  | some (.gradient g) => .dict g.fields
  | some (.pattern p) => .dict p.fields

/-- Modelled from the spec: `HighchartsMeta.trim_dict`
(`highcharts/metaclasses.py`, not included in the sources).  Per the trimming
invariant (spec §3) a field equal to its empty sentinel — unset (`None`) or an
empty collection — is omitted; an explicitly-set falsy value such as `False`
or `0` is kept, because the external schema distinguishes disabled from
unset. -/
def trimDict (d : List (String × JValue)) : List (String × JValue) :=
  d.filter fun kv =>
    match kv.2 with
    | .null => false
    | .dict [] => false
    | .list [] => false
    | _ => true

/-- Embedding of `DialOptions` (gauge.py lines 16-279). -/
structure DialOptions where
  background_color : Option ColorValue
  base_length : Option String
  base_width : Option Int
  border_color : Option ColorValue
  border_width : Option Int
  path : Option JValue
  radius : Option String
  rear_length : Option String
  top_width : Option Int

/-- The `DialOptions.background_color` setter (gauge.py lines 49-78): the
shared polymorphic colour resolution. -/
def DialOptions.backgroundColorSet (value : JValue) :
    Except PyError (Option ColorValue) :=
  colorResolve value

/-- The `DialOptions.border_color` setter (gauge.py lines 132-161): the shared
polymorphic colour resolution. -/
def DialOptions.borderColorSet (value : JValue) :
    Except PyError (Option ColorValue) :=
  colorResolve value

/-- The `DialOptions.base_length` setter (gauge.py lines 89-98): `None` stores
unset; otherwise the value is validated as a string and must contain the
percent marker, else `HighchartsValueError`. -/
def DialOptions.baseLengthSet (value : JValue) : Except PyError (Option String) :=
  match value with
  | .null => .ok none
  | v =>
    match validators.string v false with
    | .ok (.str s) =>
      if s.toList.contains '%' then .ok (some s)
      else .error (.highchartsValueError
        ("base_length expects a percentage string. Received: " ++ s))
    | .ok _ => .error .cannotCoerceError
    | .error e => .error e

/-- The `DialOptions.radius` setter (gauge.py lines 202-211): falsy stores
unset; otherwise a percentage string is required. -/
def DialOptions.radiusSet (value : JValue) : Except PyError (Option String) :=
  if value.falsy then .ok none
  else
    match validators.string value false with
    | .ok (.str s) =>
      if s.toList.contains '%' then .ok (some s)
      else .error (.highchartsValueError
        ("radius expects a percentage string. Received: " ++ s))
    | .ok _ => .error .cannotCoerceError
    | .error e => .error e

/-- The `DialOptions.rear_length` setter (gauge.py lines 223-232). -/
def DialOptions.rearLengthSet (value : JValue) : Except PyError (Option String) :=
  if value.falsy then .ok none
  else
    match validators.string value false with
    | .ok (.str s) =>
      if s.toList.contains '%' then .ok (some s)
      else .error (.highchartsValueError
        ("rear_length expects a percentage string. Received: " ++ s))
    | .ok _ => .error .cannotCoerceError
    | .error e => .error e

/-- The `DialOptions.path` setter (gauge.py lines 186-191). -/
def DialOptions.pathSet (value : JValue) : Except PyError (Option JValue) :=
  if value.falsy then .ok none
  else storedJ (validators.iterable value)

/-- Embedding of `DialOptions.__init__` (gauge.py lines 19-38): each setter runs on
`kwargs.pop(name, None)` in source order.  Note `top_width` (lines 246-248)
calls `validators.numeric(value, minimum = 0)` **without** `allow_empty`, so an
absent `top_width` is rejected with `EmptyValueError`. -/
def DialOptions.init (kwargs : List (String × JValue)) :
    Except PyError DialOptions := do
  let background_color ← DialOptions.backgroundColorSet
    (jpop kwargs "background_color" .null)
  let base_length ← DialOptions.baseLengthSet (jpop kwargs "base_length" .null)
  let base_width ← storedInt
    (validators.numeric (jpop kwargs "base_width" .null) true (some 0))
  let border_color ← DialOptions.borderColorSet (jpop kwargs "border_color" .null)
  let border_width ← storedInt
    (validators.numeric (jpop kwargs "border_width" .null) true (some 0))
  let path ← DialOptions.pathSet (jpop kwargs "path" .null)
  let radius ← DialOptions.radiusSet (jpop kwargs "radius" .null)
  let rear_length ← DialOptions.rearLengthSet (jpop kwargs "rear_length" .null)
  let top_width ← storedInt
    (validators.numeric (jpop kwargs "top_width" .null) false (some 0))
  .ok { background_color := background_color, base_length := base_length,
        base_width := base_width, border_color := border_color,
        border_width := border_width, path := path, radius := radius,
        rear_length := rear_length, top_width := top_width }

/-- Embedding of `DialOptions.from_dict` (gauge.py lines 250-264). -/
def DialOptions.fromDict (as_dict : List (String × JValue)) :
    Except PyError DialOptions :=
  DialOptions.init
    [("background_color", jpop as_dict "backgroundColor" .null),
     ("base_length", jpop as_dict "baseLength" .null),
     ("base_width", jpop as_dict "baseWidth" .null),
     ("border_color", jpop as_dict "borderColor" .null),
     ("border_width", jpop as_dict "borderWidth" .null),
     ("path", jpop as_dict "path" .null),
     ("radius", jpop as_dict "radius" .null),
     ("rear_length", jpop as_dict "rearLength" .null),
     ("top_width", jpop as_dict "topWidth" .null)]

/-- Embedding of `DialOptions.to_dict` (gauge.py lines 266-279). -/
def DialOptions.toDict (d : DialOptions) : List (String × JValue) :=
  trimDict
    [("backgroundColor", jOfColor d.background_color),
     ("baseLength", jOfOptStr d.base_length),
     ("baseWidth", jOfOptInt d.base_width),
     ("borderColor", jOfColor d.border_color),
     ("borderWidth", jOfOptInt d.border_width),
     ("path", jOfOpt d.path),
     ("radius", jOfOptStr d.radius),
     ("rearLength", jOfOptStr d.rear_length),
     ("topWidth", jOfOptInt d.top_width)]

/-- Embedding of `PivotOptions` (gauge.py lines 282-425). -/
structure PivotOptions where
  background_color : Option ColorValue
  border_color : Option ColorValue
  border_width : Option Int
  radius : Option Int

/-- The `PivotOptions.background_color` setter (gauge.py lines 305-334): the
shared polymorphic colour resolution. -/
def PivotOptions.backgroundColorSet (value : JValue) :
    Except PyError (Option ColorValue) :=
  colorResolve value

/-- The `PivotOptions.border_color` setter (gauge.py lines 349-378). -/
def PivotOptions.borderColorSet (value : JValue) :
    Except PyError (Option ColorValue) :=
  colorResolve value

/-- Embedding of `PivotOptions.__init__` (gauge.py lines 285-294). -/
def PivotOptions.init (kwargs : List (String × JValue)) :
    Except PyError PivotOptions := do
  let background_color ← PivotOptions.backgroundColorSet
    (jpop kwargs "background_color" .null)
  let border_color ← PivotOptions.borderColorSet (jpop kwargs "border_color" .null)
  let border_width ← storedInt
    (validators.numeric (jpop kwargs "border_width" .null) true (some 0))
  let radius ← storedInt
    (validators.numeric (jpop kwargs "radius" .null) true none)
  .ok { background_color := background_color, border_color := border_color,
        border_width := border_width, radius := radius }

/-- Embedding of `PivotOptions.from_dict` (gauge.py lines 406-415). -/
def PivotOptions.fromDict (as_dict : List (String × JValue)) :
    Except PyError PivotOptions :=
  PivotOptions.init
    [("background_color", jpop as_dict "backgroundColor" .null),
     ("border_color", jpop as_dict "borderColor" .null),
     ("border_width", jpop as_dict "borderWidth" .null),
     ("radius", jpop as_dict "radius" .null)]

/-- Embedding of `PivotOptions.to_dict` (gauge.py lines 417-425). -/
def PivotOptions.toDict (p : PivotOptions) : List (String × JValue) :=
  trimDict
    [("backgroundColor", jOfColor p.background_color),
     ("borderColor", jOfColor p.border_color),
     ("borderWidth", jOfOptInt p.border_width),
     ("radius", jOfOptInt p.radius)]

/-- A stored `shadow` value: an explicit boolean flag or a `ShadowOptions`
node (gauge.py lines 706-715). -/
inductive ShadowSetting where
  | flag (b : Bool)
  | node (o : SpecNode)

/-- The `GaugeOptions.shadow` setter (gauge.py lines 706-715): a boolean is
stored as-is, a falsy value stores unset, anything else goes through
`validate_types(value, types = ShadowOptions)` — the decorator helper
(`highcharts/decorators.py`, not in the sources) modelled from spec §4.1: a
dict converts via the node type, other values fail. -/
def GaugeOptions.shadowSet (value : JValue) :
    Except PyError (Option ShadowSetting) :=
  match value with
  | .bool b => .ok (some (.flag b))
  | v =>
    if v.falsy then .ok none
    else
      match v with
      | .dict es => .ok (some (.node ⟨es⟩))
      | _ => .error (.highchartsValueError
          "expects a ShadowOptions instance or compatible dict")

/-- Lower a stored shadow value into the external universe. -/
def jOfShadow : Option ShadowSetting → JValue
  | none => .null
  | some (.flag b) => .bool b
  | some (.node o) => .dict o.fields

/-- Modelled from the spec: `GenericTypeOptions`
(`highcharts/plot_options/generic.py`, not included in the sources), the
parent class of `GaugeOptions`.  Per spec §3 it is a configuration node with a
total, invertible internal/external key mapping; its state maps each external
camelCase key to the stored field value. -/
structure GenericTypeOptions where
  fields : List (String × JValue)

/-- The (snake_case keyword, external camelCase key) pairs of every field
`GaugeOptions` forwards to its parent class, taken from
`GaugeOptions._get_kwargs_from_dict` (gauge.py lines 749-797). -/
def gaugeParentKeyTable : List (String × String) :=
  [("accessibility", "accessibility"),
   ("allow_point_select", "allowPointSelect"),
   ("animation", "animation"),
   ("class_name", "className"),
   ("clip", "clip"),
   ("color", "color"),
   ("cursor", "cursor"),
   ("custom", "custom"),
   ("dash_style", "dashStyle"),
   ("data_labels", "dataLabels"),
   ("description", "description"),
   ("enable_mouse_tracking", "enableMouseTracking"),
   ("events", "events"),
   ("include_in_data_export", "includeInDataExport"),
   ("keys", "keys"),
   ("label", "label"),
   ("linked_to", "linkedTo"),
   ("marker", "marker"),
   ("on_point", "onPoint"),
   ("opacity", "opacity"),
   ("point", "point"),
   ("point_description_formatter", "pointDescriptionFormatter"),
   ("selected", "selected"),
   ("show_checkbox", "showCheckbox"),
   ("show_in_legend", "showInLegend"),
   ("skip_keyboard_navigation", "skipKeyboardNavigation"),
   ("states", "states"),
   ("sticky_tracking", "stickyTracking"),
   ("threshold", "threshold"),
   ("tooltip", "tooltip"),
   ("turbo_threshold", "turboThreshold"),
   ("visible", "visible"),
   ("point_placement", "pointPlacement")]

/-- Modelled from the spec: the parent constructor stores each keyword it is
given under the external key of the field (absent keywords stay unset). -/
def GenericTypeOptions.init (kwargs : List (String × JValue)) :
    GenericTypeOptions :=
  ⟨gaugeParentKeyTable.map (fun p => (p.2, jpop kwargs p.1 .null))⟩

/-- Modelled from the spec: the parent `to_dict` emits each stored field under
its external camelCase key (spec §4.3); trimming is applied by the caller. -/
def GenericTypeOptions.toDict (g : GenericTypeOptions) :
    List (String × JValue) :=
  g.fields

/-- Embedding of `GaugeOptions` (gauge.py lines 428-822): the thirteen fields the class
declares itself, plus the parent state. -/
structure GaugeOptions where
  color_index : Option Int
  crisp : Option Bool
  dial : Option DialOptions
  linecap : Option String
  line_width : Option Int
  overshoot : Option Int
  pivot : Option PivotOptions
  point_interval : Option Int
  point_interval_unit : Option String
  point_start : Option Int
  relative_x_value : Option Bool
  shadow : Option ShadowSetting
  wrap : Option Bool
  parent : GenericTypeOptions

/-- The keyword names `GaugeOptions.__init__` pops for itself (gauge.py lines
455-467); every other keyword is forwarded to `super().__init__`. -/
def gaugeOwnNames : List String :=
  ["color_index", "crisp", "dial", "linecap", "line_width", "overshoot",
   "pivot", "point_interval", "point_interval_unit", "point_start",
   "relative_x_value", "shadow", "wrap"]

/-- Embedding of `GaugeOptions.__init__` (gauge.py lines 440-469): each own setter runs on
`kwargs.pop(name, None)` in source order, then the remaining keywords go to
`super().__init__(**kwargs)`. -/
def GaugeOptions.init (kwargs : List (String × JValue)) :
    Except PyError GaugeOptions := do
  let color_index ← storedInt
    (validators.integer (jpop kwargs "color_index" .null) true (some 0))
  let crisp := boolOrNone (jpop kwargs "crisp" .null)
  let dial ← classSensitive DialOptions.fromDict (jpop kwargs "dial" .null)
  let linecap ← storedStr
    (validators.string (jpop kwargs "linecap" .null) true)
  let line_width ← storedInt
    (validators.numeric (jpop kwargs "line_width" .null) true (some 0))
  let overshoot ← storedInt
    (validators.numeric (jpop kwargs "overshoot" .null) true (some 0))
  let pivot ← classSensitive PivotOptions.fromDict (jpop kwargs "pivot" .null)
  let point_interval ← storedInt
    (validators.numeric (jpop kwargs "point_interval" .null) true (some 0))
  let point_interval_unit ← storedStr
    (validators.string (jpop kwargs "point_interval_unit" .null) true)
  let point_start ← storedInt
    (validators.numeric (jpop kwargs "point_start" .null) true none)
  let relative_x_value := boolOrNone (jpop kwargs "relative_x_value" .null)
  let shadow ← GaugeOptions.shadowSet (jpop kwargs "shadow" .null)
  let wrap := boolOrNone (jpop kwargs "wrap" .null)
  let rest := kwargs.filter (fun kv => !(gaugeOwnNames.contains kv.1))
  .ok { color_index := color_index, crisp := crisp, dial := dial,
        linecap := linecap, line_width := line_width, overshoot := overshoot,
        pivot := pivot, point_interval := point_interval,
        point_interval_unit := point_interval_unit, point_start := point_start,
        relative_x_value := relative_x_value, shadow := shadow, wrap := wrap,
        parent := GenericTypeOptions.init rest }

/-- Embedding of `GaugeOptions._get_kwargs_from_dict` (gauge.py lines 736-799), key for
key and default for default in source order.  Note that **no entry pops
`pointStart`**: the serialized `pointStart` key of an input dictionary is never
read back into a keyword, while `point_placement` is popped even though
`GaugeOptions` itself declares no such field. -/
def gaugeGetKwargsFromDict (as_dict : List (String × JValue)) :
    List (String × JValue) :=
  [("accessibility", jpop as_dict "accessibility" .null),
   ("allow_point_select", jpop as_dict "allowPointSelect" (.bool false)),
   ("animation", jpop as_dict "animation" .null),
   ("class_name", jpop as_dict "className" .null),
   ("clip", jpop as_dict "clip" (.bool true)),
   ("color", jpop as_dict "color" .null),
   ("cursor", jpop as_dict "cursor" .null),
   ("custom", jpop as_dict "custom" .null),
   ("dash_style", jpop as_dict "dashStyle" .null),
   ("data_labels", jpop as_dict "dataLabels" .null),
   ("description", jpop as_dict "description" .null),
   ("enable_mouse_tracking", jpop as_dict "enableMouseTracking" (.bool true)),
   ("events", jpop as_dict "events" .null),
   ("include_in_data_export", jpop as_dict "includeInDataExport" .null),
   ("keys", jpop as_dict "keys" .null),
   ("label", jpop as_dict "label" .null),
   ("linked_to", jpop as_dict "linkedTo" .null),
   ("marker", jpop as_dict "marker" .null),
   ("on_point", jpop as_dict "onPoint" .null),
   ("opacity", jpop as_dict "opacity" .null),
   ("point", jpop as_dict "point" .null),
   ("point_description_formatter",
     jpop as_dict "pointDescriptionFormatter" .null),
   ("selected", jpop as_dict "selected" (.bool false)),
   ("show_checkbox", jpop as_dict "showCheckbox" (.bool false)),
   ("show_in_legend", jpop as_dict "showInLegend" .null),
   ("skip_keyboard_navigation", jpop as_dict "skipKeyboardNavigation" .null),
   ("states", jpop as_dict "states" .null),
   ("sticky_tracking", jpop as_dict "stickyTracking" .null),
   ("threshold", jpop as_dict "threshold" .null),
   ("tooltip", jpop as_dict "tooltip" .null),
   ("turbo_threshold", jpop as_dict "turboThreshold" .null),
   ("visible", jpop as_dict "visible" (.bool true)),
   ("color_index", jpop as_dict "colorIndex" .null),
   ("crisp", jpop as_dict "crisp" (.bool true)),
   ("linecap", jpop as_dict "linecap" (.str "round")),
   ("line_width", jpop as_dict "lineWidth" (.num 2)),
   ("point_interval", jpop as_dict "pointInterval" (.num 1)),
   ("point_interval_unit", jpop as_dict "pointIntervalUnit" .null),
   ("point_placement", jpop as_dict "pointPlacement" .null),
   ("relative_x_value", jpop as_dict "relativeXValue" (.bool false)),
   ("shadow", jpop as_dict "shadow" (.bool false)),
   ("dial", jpop as_dict "dial" .null),
   ("overshoot", jpop as_dict "overshoot" .null),
   ("pivot", jpop as_dict "pivot" .null),
   ("wrap", jpop as_dict "wrap" .null)]

/-- Modelled from the spec: `HighchartsMeta.from_dict`
(`highcharts/metaclasses.py`, not included in the sources) routes the external
dictionary through the `_get_kwargs_from_dict` of the class and then the
constructor (spec §4.3; unknown external keys are ignored). -/
def GaugeOptions.fromDict (as_dict : List (String × JValue)) :
    Except PyError GaugeOptions :=
  GaugeOptions.init (gaugeGetKwargsFromDict as_dict)

/-- Model of `dict.__setitem__` with Python insertion-order semantics: updating an
existing key keeps its position, a new key is appended. -/
def setKey : List (String × JValue) → String → JValue → List (String × JValue)
  | [], k, v => [(k, v)]
  | (k0, v0) :: rest, k, v =>
    if k0 == k then (k0, v) :: rest else (k0, v0) :: setKey rest k v

/-- The merge loop of `GaugeOptions.to_dict` (gauge.py lines 819-820):
`for key in parent_as_dict: untrimmed[key] = parent_as_dict[key]`. -/
def dictUpdate (base updates : List (String × JValue)) :
    List (String × JValue) :=
  updates.foldl (fun acc kv => setKey acc kv.1 kv.2) base

/-- Embedding of `GaugeOptions.to_dict` (gauge.py lines 801-822): the thirteen own fields
under their external keys (note `pointStart` **is** emitted here), overlaid
with the parent dictionary, then trimmed. -/
def GaugeOptions.toDict (g : GaugeOptions) : List (String × JValue) :=
  let untrimmed :=
    [("colorIndex", jOfOptInt g.color_index),
     ("crisp", jOfOptBool g.crisp),
     ("dial", match g.dial with | none => .null | some d => .dict d.toDict),
     ("linecap", jOfOptStr g.linecap),
     ("lineWidth", jOfOptInt g.line_width),
     ("overshoot", jOfOptInt g.overshoot),
     ("pivot", match g.pivot with | none => .null | some p => .dict p.toDict),
     ("pointInterval", jOfOptInt g.point_interval),
     ("pointIntervalUnit", jOfOptStr g.point_interval_unit),
     ("pointStart", jOfOptInt g.point_start),
     ("relativeXValue", jOfOptBool g.relative_x_value),
     ("shadow", jOfShadow g.shadow),
     ("wrap", jOfOptBool g.wrap)]
  trimDict (dictUpdate untrimmed g.parent.toDict)

/-- Embedding of `SolidGauge` (gauge.py lines 825-1015): the four fields the class declares
itself.  `inner_radius` and `radius` store either a percentage string or a
number. -/
structure SolidGauge where
  inner_radius : Option JValue
  overshoot : Option Int
  radius : Option JValue
  rounded : Option Bool

/-- The `SolidGauge.inner_radius` setter (gauge.py lines 859-871): `None`
stores unset; otherwise `try: value = validators.string(value); if percent
marker missing: raise ValueError; except ValueError: value =
validators.numeric(value, minimum = 0)` — so a percentage string is stored
verbatim and **any** `ValueError` (including the raised marker check and the
string validator rejecting a non-string) falls back to numeric validation. -/
def SolidGauge.innerRadiusSet (value : JValue) : Except PyError (Option JValue) :=
  match value with
  | .null => .ok none
  | v =>
    match validators.string v false with
    | .ok (.str s) =>
      if s.toList.contains '%' then .ok (some (.str s))
      else storedJ (validators.numeric v false (some 0))
    | .ok _ => storedJ (validators.numeric v false (some 0))
    | .error e =>
      if e.isValueError then storedJ (validators.numeric v false (some 0))
      else .error e

/-- The `SolidGauge.radius` setter (gauge.py lines 902-914): identical shape to
`SolidGauge.innerRadiusSet`. -/
def SolidGauge.radiusSet (value : JValue) : Except PyError (Option JValue) :=
  match value with
  | .null => .ok none
  | v =>
    match validators.string v false with
    | .ok (.str s) =>
      if s.toList.contains '%' then .ok (some (.str s))
      else storedJ (validators.numeric v false (some 0))
    | .ok _ => storedJ (validators.numeric v false (some 0))
    | .error e =>
      if e.isValueError then storedJ (validators.numeric v false (some 0))
      else .error e

/-- Embedding of `SolidGauge.__init__` (gauge.py lines 837-848), restricted to the four own
fields (the remaining keywords go to the `SeriesOptions` parent, which no
verified property touches). -/
def SolidGauge.init (kwargs : List (String × JValue)) :
    Except PyError SolidGauge := do
  let inner_radius ← SolidGauge.innerRadiusSet (jpop kwargs "inner_radius" .null)
  let overshoot ← storedInt
    (validators.numeric (jpop kwargs "overshoot" .null) true (some 0))
  let radius ← SolidGauge.radiusSet (jpop kwargs "radius" .null)
  let rounded := boolOrNone (jpop kwargs "rounded" .null)
  .ok { inner_radius := inner_radius, overshoot := overshoot,
        radius := radius, rounded := rounded }

/-- The untrimmed dictionary built by `SolidGauge.to_dict` (gauge.py lines
1004-1009): its keys are the **internal snake_case** names, not the external
camelCase keys used by every other node. -/
def SolidGauge.untrimmedOwnDict (g : SolidGauge) : List (String × JValue) :=
  [("inner_radius", jOfOpt g.inner_radius),
   ("overshoot", jOfOptInt g.overshoot),
   ("radius", jOfOpt g.radius),
   ("rounded", jOfOptBool g.rounded)]

/-- Embedding of `SolidGauge.to_dict` (gauge.py lines 1003-1015): after building the
untrimmed own dictionary, the parent serialization is invoked as
`super(self).to_dict()`.  `super` called with a single non-type argument
raises `TypeError` in Python (`super() argument 1 must be a type`), so the
method always raises before returning a dictionary. -/
def SolidGauge.toDict (g : SolidGauge) :
    Except PyError (List (String × JValue)) :=
  let _untrimmed := g.untrimmedOwnDict
  .error (.typeError "super() argument 1 must be a type")

/-! ## `highcharts/series/data/vector.py` -/

/-- Embedding of `VectorData` (vector.py lines 10-158): the two fields the class declares
itself plus the `x`/`y` fields of the `CartesianData` parent.  The `x` and `y`
setters are modelled from the spec: `CartesianData`
(`highcharts/series/data/cartesian.py`, not included in the sources) stores an
optional numeric coordinate per spec §3 (primitive field, unset default); the
remaining parent fields are never touched by the verified properties. -/
structure VectorData where
  x : Option Int
  y : Option Int
  length : Option Int
  direction : Option Int

/-- Embedding of `VectorData.__init__` (vector.py lines 14-21): the `direction` and
`length` setters (lines 32-34 and 49-51) run on `kwargs.pop(name, None)`,
then `super().__init__(**kwargs)` handles `x` and `y` (modelled from the
spec, see `VectorData`). -/
def VectorData.init (kwargs : List (String × JValue)) :
    Except PyError VectorData := do
  let direction ← storedInt
    (validators.numeric (jpop kwargs "direction" .null) true none)
  let length ← storedInt
    (validators.numeric (jpop kwargs "length" .null) true none)
  let x ← storedInt (validators.numeric (jpop kwargs "x" .null) true none)
  let y ← storedInt (validators.numeric (jpop kwargs "y" .null) true none)
  .ok { x := x, y := y, length := length, direction := direction }

/-- The empty placeholder node produced for an explicit-null data point. -/
def VectorData.emptyNode : VectorData :=
  { x := none, y := none, length := none, direction := none }

/-- Embedding of `VectorData._get_kwargs_from_dict` (vector.py lines 94-131), restricted to
the keys of the modelled fields (the other popped keys feed parent fields no
verified property touches). -/
def VectorData.fromDict (as_dict : List (String × JValue)) :
    Except PyError VectorData :=
  VectorData.init
    [("x", jpop as_dict "x" .null),
     ("y", jpop as_dict "y" .null),
     ("direction", jpop as_dict "direction" .null),
     ("length", jpop as_dict "length" .null)]

/-- Embedding of `checkers.is_iterable` over the modelled universe: lists, dicts and
strings are the Python iterables here. -/
def JValue.isIterable : JValue → Bool
  | .list _ => true
  | .dict _ => true
  | .str _ => true
  | _ => false

/-- Iterating a Python value: a list yields its items, a dict its keys, a
string its characters. -/
def JValue.iterate : JValue → List JValue
  | .list xs => xs
  | .dict es => es.map (fun kv => .str kv.1)
  | .str s => s.toList.map (fun c => .str (String.singleton c))
  | _ => []

/-- Embedding of `len(item)` for the shapes that support it; other values raise
`TypeError`. -/
def pyLen : JValue → Except PyError Nat
  | .list xs => .ok xs.length
  | .str s => .ok s.toList.length
  | .dict es => .ok es.length
  | _ => .error (.typeError "object has no len()")

/-- Embedding of `item[i]` for an in-range index on a list or string (the only shapes the
embedded loop indexes after checking the length). -/
def jIndex : JValue → Nat → JValue
  | .list xs, i => xs.getD i .null
  | .str s, i => .str (String.singleton (s.toList.getD i ' '))
  | _, _ => .null

/-- One iteration of the `VectorData.from_setter` loop (vector.py lines
67-90): a typed instance passes through (instances do not occur in the
external universe), a dict converts via `from_dict`, `None` and the
explicit-null sentinel produce an empty placeholder node, a length-4 sequence
maps positionally to `x, y, length, direction`, a length-3 sequence to
`y, length, direction`, and anything else raises `HighchartsValueError`. -/
def vectorItemToObj (item : JValue) : Except PyError VectorData :=
  match item with
  | .dict es => VectorData.fromDict es
  | .null => VectorData.init []
  | .enull => VectorData.init []
  | v => do
    let n ← pyLen v
    if n == 4 then
      VectorData.init
        [("x", jIndex v 0), ("y", jIndex v 1),
         ("length", jIndex v 2), ("direction", jIndex v 3)]
    else if n == 3 then
      VectorData.init
        [("x", .null), ("y", jIndex v 0),
         ("length", jIndex v 1), ("direction", jIndex v 2)]
    else
      .error (.highchartsValueError
        "each data point supplied must either be a Vector Data Point or be coercable to one.")

/-- The collection loop of `VectorData.from_setter` (vector.py lines 66-92):
items are coerced left to right, stopping at the first failure. -/
def vectorCoerceAll : List JValue → Except PyError (List VectorData)
  | [] => .ok []
  | item :: rest => do
    let obj ← vectorItemToObj item
    let objs ← vectorCoerceAll rest
    .ok (obj :: objs)

/-- Embedding of `VectorData.from_setter` (vector.py lines 53-92): a falsy value produces
the empty list, a non-iterable is wrapped into a singleton list, and the items
are coerced one by one. -/
def VectorData.fromSetter (value : JValue) : Except PyError (List VectorData) :=
  if value.falsy then .ok []
  else if !value.isIterable then vectorCoerceAll [value]
  else vectorCoerceAll value.iterate

/-- The all-unset breadcrumb configuration produced by `BreadcrumbOptions()`
with no keyword arguments (every backing attribute keeps the `None` assigned
at the top of `__init__`; every setter accepts the absent value). -/
def breadcrumbEmpty : BreadcrumbOptions :=
  { button_spacing := none, buttonThemeUnused := none, theme := none,
    events := none, floating := none, format := none, formatter := none,
    position := none, relative_to := none, rtl := none, separator := none,
    show_full_path := none, style := none, use_html := none, z_index := none }

/-! ## Theorems -/

/-- Helper for C7: the item-by-item coercion loop of
`VectorData.from_setter` sends the item at every position to its coerced node;
in particular an explicit `None` item yields the empty placeholder node at the
same position. -/
theorem vectorCoerceAll_nullItem :
    ∀ (xs : List JValue) (res : List VectorData),
      vectorCoerceAll xs = .ok res →
      ∀ i, xs.get? i = some JValue.null →
        res.get? i = some VectorData.emptyNode := by
  intro xs
  induction xs with
  | nil =>
    intro res h i hi
    simp [List.get?] at hi
  | cons x rest ih =>
    intro res h i hi
    unfold vectorCoerceAll at h
    simp only [Bind.bind, Except.bind] at h
    cases hobj : vectorItemToObj x with
    | error e => rw [hobj] at h; exact Except.noConfusion h
    | ok obj =>
      rw [hobj] at h
      cases hrest : vectorCoerceAll rest with
      | error e => rw [hrest] at h; exact Except.noConfusion h
      | ok objs =>
        rw [hrest] at h
        have hres : res = obj :: objs := (Except.ok.injEq _ _).mp h.symm
        subst hres
        cases i with
        | zero =>
          have hx : x = JValue.null := by simpa using hi
          subst hx
          have hemp : obj = VectorData.emptyNode := by
            have hh : (Except.ok obj : Except PyError VectorData) =
                .ok VectorData.emptyNode := by
              rw [← hobj]; rfl
            exact (Except.ok.injEq _ _).mp hh
          simp [hemp]
        | succ j =>
          have hj : rest.get? j = some JValue.null := by simpa using hi
          simpa using ih objs hrest j hj

/-- C7: calling `VectorData.from_setter` with `[[1,2,3,4],[5,6,7,8]]` returns
exactly two `VectorData` nodes, the first with `x=1, y=2, length=3,
direction=4` and the second with `x=5, y=6, length=7, direction=8` (each
4-element positional sequence maps positionally onto the named fields); and
for every input list, a `None` item yields the empty placeholder node in the
corresponding position of the result. -/
theorem vector_from_setter_positional_and_null :
    VectorData.fromSetter
        (.list [.list [.num 1, .num 2, .num 3, .num 4],
                .list [.num 5, .num 6, .num 7, .num 8]]) =
      .ok [{ x := some 1, y := some 2, length := some 3, direction := some 4 },
           { x := some 5, y := some 6, length := some 7, direction := some 8 }] ∧
    ∀ (xs : List JValue) (res : List VectorData),
      VectorData.fromSetter (.list xs) = .ok res →
      ∀ i, xs.get? i = some JValue.null →
        res.get? i = some VectorData.emptyNode := by
  constructor
  · rfl
  · intro xs res h i hi
    cases xs with
    | nil => simp [List.get?] at hi
    | cons a rest =>
      simp only [VectorData.fromSetter, JValue.falsy, JValue.isIterable,
        JValue.iterate, List.isEmpty] at h
      exact vectorCoerceAll_nullItem _ _ h i hi

/-- Witness for C7: the universal part instantiated at the concrete input
`[None]`, whose coercion succeeds with the empty placeholder at position 0. -/
theorem vector_from_setter_witness :
    ([VectorData.emptyNode] : List VectorData).get? 0 =
      some VectorData.emptyNode :=
  vector_from_setter_positional_and_null.2
    [JValue.null] [VectorData.emptyNode] rfl 0 rfl

/-- C8: for every `BreadcrumbOptions` instance and every integer value,
assigning the value to `z_index` leaves the instance entirely unchanged (the
setter validates the value but writes no backing attribute, so no field is
modified); and every constructed instance has `z_index = None`, so reading
`z_index` after the assignment still returns `None`. -/
theorem breadcrumb_z_index_setter_writes_nothing :
    (∀ (b : BreadcrumbOptions) (n : Int),
        BreadcrumbOptions.zIndexSet b (.num n) = .ok b) ∧
    ∀ (kwargs : List (String × JValue)) (b : BreadcrumbOptions),
      BreadcrumbOptions.init kwargs = .ok b → b.z_index = none := by
  constructor
  · intro b n; rfl
  · intro kwargs b h
    unfold BreadcrumbOptions.init at h
    simp only [Bind.bind, Except.bind, Pure.pure, Except.pure] at h
    repeat' split at h
    all_goals first
      | exact Except.noConfusion h
      | (injection h with h2; subst h2; rfl)

/-- Witness for C8: instantiated at the instance built with no keyword
arguments and at the integer 5. -/
theorem breadcrumb_z_index_witness :
    BreadcrumbOptions.zIndexSet breadcrumbEmpty (.num 5) = .ok breadcrumbEmpty ∧
    breadcrumbEmpty.z_index = none :=
  ⟨breadcrumb_z_index_setter_writes_nothing.1 breadcrumbEmpty 5,
   breadcrumb_z_index_setter_writes_nothing.2 [] breadcrumbEmpty rfl⟩

/-- C6: evaluation of the code at the failing input.  Assigning the valid
integer 5 to `z_index` on a freshly constructed `BreadcrumbOptions` does not
raise (the validator accepts 5), yet nothing is committed: the instance is
returned unchanged and the stored `z_index` is still `None`, not 5 — the
setter neither raises nor commits the validated value, contradicting the
claimed invariant that every non-raising assignment commits. -/
theorem breadcrumb_z_index_assignment_not_committed :
    (match BreadcrumbOptions.init [] with
     | .ok b =>
        validators.integer (.num 5) true none = .ok (.num 5) ∧
        BreadcrumbOptions.zIndexSet b (.num 5) = .ok b ∧
        b.z_index = none
     | .error _ => False) := ⟨rfl, rfl, rfl⟩

/-- C9: for every `SeriesNavigation` instance, reading the
`remember_point_focus` property raises `AttributeError` (the getter reads
`self.point_focus`, a name the class never defines) and `to_dict()` also
always raises `AttributeError` (it reads the misspelled
`self.remmeber_point_focus`), so no `SeriesNavigation` node can ever be
serialized; neither name occurs among the defined attributes of the class. -/
theorem series_navigation_never_serializable :
    (∀ s : SeriesNavigation,
        SeriesNavigation.rememberPointFocusGet s =
          .error (.attributeError "point_focus") ∧
        SeriesNavigation.toDict s =
          .error (.attributeError "remmeber_point_focus")) ∧
    "point_focus" ∉ SeriesNavigation.attributeNames ∧
    "remmeber_point_focus" ∉ SeriesNavigation.attributeNames :=
  ⟨fun _ => ⟨rfl, rfl⟩, by decide, by decide⟩

/-- C10: for every `SolidGauge` instance, `to_dict()` raises `TypeError`
before returning any dictionary (the parent serialization is invoked as
`super(self).to_dict()`, and `super` with a single non-type argument is
invalid), so no `SolidGauge` node can ever be serialized; moreover the
untrimmed dictionary it builds first uses the internal snake_case keys,
`inner_radius` among them, rather than external camelCase keys. -/
theorem solid_gauge_to_dict_always_raises :
    ∀ g : SolidGauge,
      SolidGauge.toDict g =
        .error (.typeError "super() argument 1 must be a type") ∧
      (SolidGauge.untrimmedOwnDict g).map Prod.fst =
        ["inner_radius", "overshoot", "radius", "rounded"] :=
  fun _ => ⟨rfl, rfl⟩

/-- C1: evaluation of the code at the failing input.  A `GaugeOptions` node
constructed with `point_start = 5` (and `line_width = 7`) serializes to a
dictionary containing `pointStart = 5`; feeding that dictionary back through
`from_dict` yields a node whose `point_start` is unset — because
`_get_kwargs_from_dict` never pops `pointStart`, as the first conjunct shows
directly — so the second `to_dict()` output no longer contains `pointStart`
(while `lineWidth` survives the round trip), refuting the claimed round-trip
preservation for this field. -/
theorem gauge_point_start_dropped_by_round_trip :
    jlookup (gaugeGetKwargsFromDict [("pointStart", JValue.num 5)])
        "point_start" = none ∧
    (match GaugeOptions.init [("point_start", .num 5), ("line_width", .num 7)] with
     | .ok g1 =>
        jlookup g1.toDict "pointStart" = some (.num 5) ∧
        jlookup g1.toDict "lineWidth" = some (.num 7) ∧
        (match GaugeOptions.fromDict g1.toDict with
         | .ok g2 =>
            g2.point_start = none ∧
            jlookup g2.toDict "pointStart" = none ∧
            jlookup g2.toDict "lineWidth" = some (.num 7)
         | .error _ => False)
     | .error _ => False) := ⟨rfl, rfl, rfl, rfl, rfl, rfl⟩

/-- C2: evaluation of the code at the failing input.  Assigning the plain
colour string `#ccc` — non-empty, not a `Gradient`/`Pattern` instance, and
containing neither the `linearGradient` nor the `patternOptions` marker — to
`DialOptions.background_color` or `PivotOptions.background_color` is **not**
stored as a plain colour string: the final `else` branch of the setter raises
`HighchartsValueError`, exactly as it does for a list. -/
theorem plain_color_string_rejected :
    DialOptions.backgroundColorSet (.str "#ccc") =
      .error (.highchartsValueError
        "Unable to resolve value to a string, Gradient, or Pattern.") ∧
    PivotOptions.backgroundColorSet (.str "#ccc") =
      .error (.highchartsValueError
        "Unable to resolve value to a string, Gradient, or Pattern.") ∧
    DialOptions.backgroundColorSet (.list [.str "#fff", .str "#000"]) =
      .error (.highchartsValueError
        "Unable to resolve value to a string, Gradient, or Pattern.") :=
  ⟨rfl, rfl, rfl⟩

/-- C3: evaluation of the code at the failing input.  The documented
enumeration tokens `plotBox` and `spacingBox` are rejected in **every** casing
by the `relative_to` setters of `BreadcrumbOptions` and
`ResetZoomButtonOptions` (the value is lowercased before membership is tested
against a list that contains the mixed-case spellings), while the all-lowercase
tokens are accepted in any casing and stored normalized, as is every token of
`SeriesNavigation.mode`. -/
theorem relative_to_documented_tokens_rejected :
    BreadcrumbOptions.relativeToSet (.str "plotBox") =
      .error (.highchartsValueError
        "relative_to accepts \"plot\", \"chart\", \"plotBox\", \"spacingBox\", or None. Received: plotbox") ∧
    BreadcrumbOptions.relativeToSet (.str "PLOTBOX") =
      .error (.highchartsValueError
        "relative_to accepts \"plot\", \"chart\", \"plotBox\", \"spacingBox\", or None. Received: plotbox") ∧
    ResetZoomButtonOptions.relativeToSet (.str "spacingBox") =
      .error (.highchartsValueError
        "relative_to accepts \"plot\", \"chart\", \"plotBox\", \"spacingBox\", or None. Received: spacingbox") ∧
    BreadcrumbOptions.relativeToSet (.str "PLOT") = .ok (some "plot") ∧
    BreadcrumbOptions.relativeToSet (.str "chart") = .ok (some "chart") ∧
    SeriesNavigation.modeSet (.str "SERIALIZE") = .ok "serialize" :=
  ⟨rfl, rfl, rfl, rfl, rfl, rfl⟩

/-- Counterexample to C4: assigning the numeric string `80` (no percent
marker) to the percentage-or-number field `SolidGauge.inner_radius` does
**not** raise — the `except ValueError` fallback coerces it to the plain
number 80 and stores it. -/
theorem percentage_numeric_string_accepted :
    SolidGauge.innerRadiusSet (.str "80") = .ok (some (.num 80)) := rfl

/-- C4 (amended): on the percentage-string field `DialOptions.base_length`, a
numeric string without a percent marker raises a FormatError-kind
`HighchartsValueError` and `80%` is stored verbatim; on the
percentage-or-number fields `SolidGauge.inner_radius` and `SolidGauge.radius`,
`80%` is stored verbatim, the bare number 80 is stored as a plain number, and
a numeric string without a percent marker is accepted and coerced to the plain
number rather than raising. -/
theorem percentage_fields_behaviour :
    DialOptions.baseLengthSet (.str "80") =
      .error (.highchartsValueError
        "base_length expects a percentage string. Received: 80") ∧
    DialOptions.baseLengthSet (.str "80%") = .ok (some "80%") ∧
    SolidGauge.innerRadiusSet (.str "80%") = .ok (some (.str "80%")) ∧
    SolidGauge.innerRadiusSet (.num 80) = .ok (some (.num 80)) ∧
    SolidGauge.radiusSet (.str "80%") = .ok (some (.str "80%")) ∧
    SolidGauge.radiusSet (.num 80) = .ok (some (.num 80)) ∧
    SolidGauge.radiusSet (.str "80") = .ok (some (.num 80)) :=
  ⟨rfl, rfl, rfl, rfl, rfl, rfl, rfl⟩

/-- C5: evaluation of the code at the failing input.  Direct construction
`Separator()` with no keyword arguments raises instead of producing a node
with both fields unset: the `style` setter calls `validators.dict` without
`allow_empty = True`, so the absent value is rejected with `EmptyValueError`
(the second and third conjuncts isolate the divergence: with `allow_empty`
the same validator would have stored the unset sentinel). -/
theorem separator_construction_raises :
    Separator.init [] = .error .emptyValueError ∧
    validators.dict .null false = .error .emptyValueError ∧
    validators.dict .null true = .ok .null := ⟨rfl, rfl, rfl⟩

end HighchartsSpec
